import Mathlib

/-!
Shallow embedding of the Local Proxy Channel driver (src/channels/chan_local.c).

Channels live in a heap indexed by natural numbers; the C null pointer is
modelled by `Option Nat`.  Each adapter entry point becomes a pure function
from the pair private state (`local_pvt`), the channel heap and the external
inputs it consumes (lock outcomes, dialplan lookups, bridge resolution) to a
result record `Eff` carrying the return code, the surviving pair state
(`none` when the pair was destroyed), the updated heap, the number of
`local_pvt_destroy` calls performed, and the externally visible events
(masquerade, music-on-hold, module references, registry removal).

The lock back-off loops of the C code are modelled on the uncontended
sequential path; the state observed after a contended loop is an input
(see `local_queue_frame` versus its continuation `queue_frame_cont`,
which embeds the code after the lock-acquisition loop).
-/

set_option autoImplicit false

namespace ChanLocal

/-- Frame types used by the driver (AST_FRAME_*). -/
inductive FType where
  | voice
  | video
  | dtmfBegin
  | dtmfEnd
  | control
  | text
  | html
  deriving DecidableEq, Repr

/-- A media or control frame; `fdata` abstracts the payload pointer,
`pdata` carries serialized party information for connected-line and
redirecting control frames. -/
structure Frame where
  ftype : FType
  subclass : Int := 0
  datalen : Nat := 0
  fdata : Nat := 0
  len : Nat := 0
  pdata : Option Nat := none
  deriving DecidableEq, Repr

/- Control subclasses (values from asterisk/frame.h). -/
def AST_CONTROL_HANGUP : Int := 1
def AST_CONTROL_RINGING : Int := 3
def AST_CONTROL_ANSWER : Int := 4
def AST_CONTROL_HOLD : Int := 16
def AST_CONTROL_UNHOLD : Int := 17
def AST_CONTROL_CONNECTED_LINE : Int := 22
def AST_CONTROL_REDIRECTING : Int := 23

/- Channel states (asterisk/channelstate.h). -/
def AST_STATE_DOWN : Nat := 0
def AST_STATE_RING : Nat := 4
def AST_STATE_RINGING : Nat := 5

/- Device states (asterisk/devicestate.h). -/
def AST_DEVICE_NOT_INUSE : Nat := 1
def AST_DEVICE_INUSE : Nat := 2
def AST_DEVICE_INVALID : Nat := 4

/- The only channel option the driver honours (asterisk/frame.h). -/
def AST_OPTION_T38_STATE : Nat := 11

/-- Party information (caller, connected, redirecting, dialed); `valid`
abstracts the disjunction of the per-field validity tests the C code
performs before swapping, `pdata` the actual content. -/
structure Party where
  valid : Bool := false
  pdata : Nat := 0
  deriving DecidableEq, Repr

/-- The switch-owned channel record: the fields of `struct ast_channel`
that chan_local.c reads or writes. -/
structure Chan where
  readq : List Frame := []
  cstate : Nat := AST_STATE_DOWN
  generator : Bool := false
  bridge : Option Nat := none
  monitor : Option Nat := none
  audiohooks : Option Nat := none
  caller : Party := {}
  connected : Party := {}
  redirecting : Party := {}
  dialed : Party := {}
  answeredElsewhere : Bool := false
  hangupQueued : Bool := false
  hangupcause : Nat := 0
  language : Nat := 0
  accountcode : Nat := 0
  musicclass : Nat := 0
  vars : List (Nat × Nat) := []
  chanlocalstatus : Option Nat := none
  deriving Repr

/-- The channel heap; the C null pointer is `none : Option Nat` at use sites. -/
def Chans : Type := Nat → Chan

/-- Heap update at one channel id. -/
def setChan (chans : Chans) (i : Nat) (c : Chan) : Chans :=
  fun j => if j = i then c else chans j

/-- The private flag bits (LOCAL_*). -/
structure Flags where
  glareDetect : Bool := false
  cancelQueue : Bool := false
  alreadyMasqed : Bool := false
  launchedPbx : Bool := false
  noOptimization : Bool := false
  bridge : Bool := false
  mohPassthru : Bool := false
  deriving DecidableEq, Repr

/-- `struct local_pvt`: the shared pair state.  `owner` is the A side
(bridged outward), `chan` the B side (the dialplan runs there). -/
structure LocalPvt where
  flags : Flags := {}
  context : List Char := []
  exten : List Char := []
  reqformat : Nat := 0
  owner : Option Nat := none
  chan : Option Nat := none
  jbEnabled : Bool := false
  deriving DecidableEq, Repr

/-- Externally visible side effects of one adapter call. -/
inductive Event where
  | masquerade (a b : Nat)
  | groupUpdate (a b : Nat)
  | mohStart (c : Nat)
  | mohStop (c : Nat)
  | moduleUserRemoveChan
  | moduleUserRemoveOwner
  | datastoreInherit (a b : Nat)
  | cdrUpdate (c : Nat)
  | ccParamsInit (c : Nat)
  | ccInterfaces (c : Nat) (s : List Char)
  | directHangup (c : Nat)
  | pbxStart (c : Nat)
  | removeFromRegistry
  | techPvtCleared (c : Nat)
  deriving DecidableEq, Repr

/-- The result of one adapter call: return code, surviving pair state
(`none` when `local_pvt_destroy` ran), heap, number of destructions, events. -/
structure Eff where
  res : Int
  pvt : Option LocalPvt
  chans : Chans
  destroyed : Nat
  events : List Event

/-- IS_OUTBOUND(a, b): the caller is the outbound (B) side exactly when it
is the `chan` slot of the pair. -/
def isOutbound (ast : Nat) (p : LocalPvt) : Bool :=
  p.chan = some ast

/-- The generator test of local_queue_frame: drop the frame when both the
writing channel and the partner have an attached generator. -/
def genBoth (us : Option Nat) (o : Nat) (chans : Chans) : Bool :=
  (match us with
   | some u => (chans u).generator
   | none => false) && (chans o).generator

/-- Code of local_queue_frame after the lock-acquisition loop
(src lines 323-347): `p` and `other` are the pair state and the re-read
partner as observed once the partner lock is held.  If CANCEL_QUEUE is
set the pair is destroyed and failure reported; otherwise a
control-RINGING frame sets the partner state to RINGING, the frame is
enqueued, and GLARE_DETECT is cleared. -/
def queue_frame_cont (p : LocalPvt) (other : Option Nat) (f : Frame)
    (chans : Chans) : Eff :=
  if p.flags.cancelQueue then
    { res := -1, pvt := none, chans := chans, destroyed := 1, events := [] }
  else
    let chans1 :=
      match other with
      | some o =>
        let chans0 :=
          if f.ftype = FType.control ∧ f.subclass = AST_CONTROL_RINGING then
            setChan chans o { chans o with cstate := AST_STATE_RINGING }
          else chans
        setChan chans0 o { chans0 o with readq := (chans0 o).readq ++ [f] }
      | none => chans
    { res := 0, pvt := some { p with flags := { p.flags with glareDetect := false } },
      chans := chans1, destroyed := 0, events := [] }

/-- local_queue_frame on the uncontended path (src lines 285-348): compute
the partner from the direction; nothing to do when it is null; drop the
frame when both sides have generators; otherwise set GLARE_DETECT and run
the post-lock continuation. -/
def local_queue_frame (p : LocalPvt) (iso : Bool) (f : Frame)
    (us : Option Nat) (chans : Chans) : Eff :=
  let other := if iso then p.owner else p.chan
  match other with
  | none => { res := 0, pvt := some p, chans := chans, destroyed := 0, events := [] }
  | some o =>
    if genBoth us o chans then
      { res := 0, pvt := some p, chans := chans, destroyed := 0, events := [] }
    else
      queue_frame_cont { p with flags := { p.flags with glareDetect := true } }
        (some o) f chans

/-- External inputs consumed by check_bridge: the result of
ast_bridged_channel on the B side, and the outcomes of the trylock and
hangup-check calls on the bridge peer and on the owner. -/
structure CBEnv where
  bridgedChan : Option Nat := none
  lockPeerOk : Bool := true
  peerHungup : Bool := false
  lockOwnerOk : Bool := true
  ownerHungup : Bool := false
  deriving DecidableEq, Repr

/-- Monitor swap between two channels (reads both before writing). -/
def swapMonitor (chans : Chans) (a b : Nat) : Chans :=
  let ca := chans a
  let cb := chans b
  setChan (setChan chans a { ca with monitor := cb.monitor }) b
    { cb with monitor := ca.monitor }

/-- Audiohook-list swap between two channels. -/
def swapAudiohooks (chans : Chans) (a b : Nat) : Chans :=
  let ca := chans a
  let cb := chans b
  setChan (setChan chans a { ca with audiohooks := cb.audiohooks }) b
    { cb with audiohooks := ca.audiohooks }

/-- Caller-party swap between two channels. -/
def swapCaller (chans : Chans) (a b : Nat) : Chans :=
  let ca := chans a
  let cb := chans b
  setChan (setChan chans a { ca with caller := cb.caller }) b
    { cb with caller := ca.caller }

/-- Redirecting-party swap between two channels. -/
def swapRedirecting (chans : Chans) (a b : Nat) : Chans :=
  let ca := chans a
  let cb := chans b
  setChan (setChan chans a { ca with redirecting := cb.redirecting }) b
    { cb with redirecting := ca.redirecting }

/-- Dialed-party swap between two channels. -/
def swapDialed (chans : Chans) (a b : Nat) : Chans :=
  let ca := chans a
  let cb := chans b
  setChan (setChan chans a { ca with dialed := cb.dialed }) b
    { cb with dialed := ca.dialed }

/-- check_bridge (src lines 376-454), the optimize-away engine: the early
return when ALREADY_MASQED or NO_OPTIMIZATION is set, a slot is null, or
the one-step bridge of the B side differs from ast_bridged_channel; then
the one-step-bridge-present and empty-owner-readq guards; then the
try-lock / hangup-check ladder; and finally the pre-masquerade swaps,
the group update, the masquerade and setting ALREADY_MASQED. -/
def check_bridge (env : CBEnv) (p : LocalPvt) (chans : Chans) :
    LocalPvt × Chans × List Event :=
  match p.chan, p.owner with
  | some c, some o =>
    if p.flags.alreadyMasqed || p.flags.noOptimization
        || !(decide ((chans c).bridge = env.bridgedChan)) then
      (p, chans, [])
    else
      match (chans c).bridge with
      | some peer =>
        if (chans o).readq.isEmpty then
          if env.lockPeerOk then
            if !env.peerHungup then
              if env.lockOwnerOk then
                if !env.ownerHungup then
                  let chans1 :=
                    if (chans o).monitor.isSome && !(chans peer).monitor.isSome
                    then swapMonitor chans o peer else chans
                  let chans2 :=
                    if (chans1 c).audiohooks.isSome
                    then swapAudiohooks chans1 c o else chans1
                  let chans3 :=
                    if (chans2 o).caller.valid
                    then swapCaller chans2 o peer else chans2
                  let chans4 :=
                    if (chans3 o).redirecting.valid
                    then swapRedirecting chans3 o peer else chans3
                  let chans5 :=
                    if (chans4 o).dialed.valid
                    then swapDialed chans4 o peer else chans4
                  ({ p with flags := { p.flags with alreadyMasqed := true } },
                    chans5, [Event.groupUpdate c o, Event.masquerade o peer])
                else (p, chans, [])
              else (p, chans, [])
            else (p, chans, [])
          else (p, chans, [])
        else (p, chans, [])
      | none => (p, chans, [])
  | _, _ => (p, chans, [])

/-- The eligibility conditions claim C2 lists for check_bridge: both flags
clear, both handles live, one-step bridge of B equal to the transitive
bridge resolution, and an empty read queue on A. -/
def check_bridge_conds (env : CBEnv) (p : LocalPvt) (chans : Chans) : Bool :=
  !p.flags.alreadyMasqed && !p.flags.noOptimization &&
  (match p.chan, p.owner with
   | some c, some o =>
     decide ((chans c).bridge = env.bridgedChan) && (chans o).readq.isEmpty
   | _, _ => false)

/-- local_write (src lines 461-484): on a null tech_pvt fail; otherwise run
check_bridge for an outbound voice or video frame, and unless
ALREADY_MASQED is (now) set forward the frame; when it is set, drop the
frame silently and report success. -/
def local_write (env : CBEnv) (ast : Nat) (f : Frame)
    (pvt : Option LocalPvt) (chans : Chans) : Eff :=
  match pvt with
  | none => { res := -1, pvt := none, chans := chans, destroyed := 0, events := [] }
  | some p =>
    let iso := isOutbound ast p
    let r1 :=
      if iso && (f.ftype = FType.voice || f.ftype = FType.video) then
        check_bridge env p chans
      else (p, chans, [])
    let p1 := r1.1
    let chans1 := r1.2.1
    let evs1 := r1.2.2
    if !p1.flags.alreadyMasqed then
      let q := local_queue_frame p1 iso f (some ast) chans1
      { res := q.res, pvt := q.pvt, chans := q.chans,
        destroyed := q.destroyed, events := evs1 ++ q.events }
    else
      { res := 0, pvt := some p1, chans := chans1, destroyed := 0, events := evs1 }

/-- External input of local_hangup: the value of the DIALSTATUS channel
variable read from the B side. -/
structure HangEnv where
  dialstatus : Option Nat := none
  deriving DecidableEq, Repr

/-- local_hangup (src lines 749-843): propagate ANSWERED_ELSEWHERE to the B
side; on the B side record CHANLOCALSTATUS on the owner, null the `chan`
slot, clear LAUNCHED_PBX and drop the B module reference; on the A side
drop the A module reference, null the `owner` slot and queue a hangup on a
surviving B side.  When both slots are now null: under GLARE_DETECT set
CANCEL_QUEUE (the forwarder destroys), otherwise destroy now; either way
the pair leaves the registry.  Otherwise either hang up a B side that
never launched a dialplan directly, or forward a control-hangup frame
carrying the hangup cause. -/
def local_hangup (env : HangEnv) (ast : Nat) (pvt : Option LocalPvt)
    (chans : Chans) : Eff :=
  match pvt with
  | none => { res := -1, pvt := none, chans := chans, destroyed := 0, events := [] }
  | some p =>
    let iso := isOutbound ast p
    let chans1 :=
      match p.chan with
      | some c =>
        if (chans ast).answeredElsewhere then
          setChan chans c { chans c with answeredElsewhere := true }
        else chans
      | none => chans
    let step : LocalPvt × Chans × List Event :=
      if iso then
        let chans2 :=
          match env.dialstatus, p.owner with
          | some st, some o =>
            setChan chans1 o { chans1 o with chanlocalstatus := some st }
          | _, _ => chans1
        ({ p with chan := none, flags := { p.flags with launchedPbx := false } },
          chans2, [Event.moduleUserRemoveChan])
      else
        let chans2 :=
          match p.chan with
          | some c => setChan chans1 c { chans1 c with hangupQueued := true }
          | none => chans1
        ({ p with owner := none }, chans2, [Event.moduleUserRemoveOwner])
    let p2 := step.1
    let chans2 := step.2.1
    let evs2 := step.2.2 ++ [Event.techPvtCleared ast]
    if p2.owner = none ∧ p2.chan = none then
      let glare := p2.flags.glareDetect
      let p3 := if glare then { p2 with flags := { p2.flags with cancelQueue := true } }
                else p2
      let evs3 := evs2 ++ [Event.removeFromRegistry]
      if glare then
        { res := 0, pvt := some p3, chans := chans2, destroyed := 0, events := evs3 }
      else
        { res := 0, pvt := none, chans := chans2, destroyed := 1, events := evs3 }
    else
      match p2.chan, p2.flags.launchedPbx with
      | some c, false =>
        { res := 0, pvt := some p2, chans := chans2, destroyed := 0,
          events := evs2 ++ [Event.directHangup c] }
      | _, _ =>
        let f : Frame := { ftype := FType.control, subclass := AST_CONTROL_HANGUP,
                           fdata := (chans ast).hangupcause }
        let q := local_queue_frame p2 iso f none chans2
        { res := 0, pvt := q.pvt, chans := q.chans, destroyed := q.destroyed,
          events := evs2 ++ q.events }

/-- Split a character list at the first occurrence of `c` (strchr followed
by writing a NUL there): returns the part before and the part after, or
`none` when `c` does not occur. -/
def splitAtFirst (c : Char) : List Char → Option (List Char × List Char)
  | [] => none
  | x :: xs =>
    if x = c then some ([], xs)
    else
      match splitAtFirst c xs with
      | some (a, b) => some (x :: a, b)
      | none => none

/-- The destination parse of local_devicestate (src lines 162-171): the
extension is everything before the first at-sign (no at-sign means no
parse), the context is what follows, truncated at its first slash. -/
def devicestate_parse (s : List Char) : Option (List Char × List Char) :=
  match splitAtFirst '@' s with
  | none => none
  | some (e, rest) =>
    some (e, match splitAtFirst '/' rest with
             | some (ctx, _) => ctx
             | none => rest)

/-- The part of the destination before the first slash: what remains in
the exten buffer of local_alloc after the options are cut off. -/
def stripOpts (s : List Char) : List Char :=
  match splitAtFirst '/' s with
  | some (e, _) => e
  | none => s

/-- The destination parse of local_alloc (src lines 856-885): options are
stripped at the first slash first, then the at-sign is sought in what is
left; a missing context defaults to the literal string default. -/
def alloc_parse (s : List Char) : List Char × List Char :=
  match splitAtFirst '@' (stripOpts s) with
  | some (e, ctx) => (e, ctx)
  | none => (stripOpts s, "default".toList)

/-- The option letters of local_alloc: everything after the first slash. -/
def alloc_opts (s : List Char) : List Char :=
  match splitAtFirst '/' s with
  | some (_, o) => o
  | none => []

/-- Result of local_alloc: the fresh pair state plus whether the
j-without-n error was logged. -/
structure AllocResult where
  pvt : LocalPvt
  jbErrorLogged : Bool
  deriving DecidableEq, Repr

/-- local_alloc (src lines 846-907): parse options from after the first
slash (strchr checks: n sets NO_OPTIMIZATION, j enables the jitter buffer
only when NO_OPTIMIZATION was just set and logs an error otherwise, b sets
LOCAL_BRIDGE, m sets LOCAL_MOH_PASSTHRU), then parse the extension and
context from the part before the slash, defaulting the context. -/
def local_alloc (s : List Char) (format : Nat) : AllocResult :=
  let opts := alloc_opts s
  let noOpt := opts.contains 'n'
  let hasJ := opts.contains 'j'
  let parsed := alloc_parse s
  { pvt :=
      { flags := { noOptimization := noOpt,
                   bridge := opts.contains 'b',
                   mohPassthru := opts.contains 'm' },
        exten := parsed.1,
        context := parsed.2,
        reqformat := format,
        owner := none,
        chan := none,
        jbEnabled := hasJ && noOpt },
    jbErrorLogged := hasJ && !noOpt }

/-- local_devicestate (src lines 155-190): warn and return INVALID without
an at-sign; return INVALID when the dialplan lookup fails; otherwise scan
the registry for a pair with matching extension and context and a non-null
owner. -/
def local_devicestate (s : List Char)
    (extenExists : List Char → List Char → Bool)
    (registry : List LocalPvt) : Nat :=
  match devicestate_parse s with
  | none => AST_DEVICE_INVALID
  | some (exten, context) =>
    if !extenExists context exten then AST_DEVICE_INVALID
    else if registry.any (fun lp =>
        decide (lp.exten = exten) && decide (lp.context = context)
          && lp.owner.isSome) then
      AST_DEVICE_INUSE
    else AST_DEVICE_NOT_INUSE

/-- local_bridgedchannel (src lines 203-231): with a null tech_pvt return
null; with LOCAL_BRIDGE clear return `bridge` unchanged; with it set take
the endpoint opposite to `bridge`, fall back to `bridge` when that slot is
null, and otherwise report its one-step bridge when it has one, or the
opposite endpoint itself when it does not. -/
def local_bridgedchannel (bridge : Nat) (pvt : Option LocalPvt)
    (chans : Chans) : Option Nat :=
  match pvt with
  | none => none
  | some p =>
    if p.flags.bridge then
      let bridged := if p.owner = some bridge then p.chan else p.owner
      match bridged with
      | none => some bridge
      | some b =>
        match (chans b).bridge with
        | some bb => some bb
        | none => some b
    else some bridge

/-- local_queryoption (src lines 233-283): null tech_pvt and every option
other than T38_STATE fail; otherwise resolve the far endpoint of the pair
and its bridge partner (via the external `bridgedOf`) and forward the
query to the partner; a null far endpoint or missing partner fails.  The
pair state is only read, so it is returned unchanged. -/
def local_queryoption (ast : Nat) (opt : Nat) (pvt : Option LocalPvt)
    (chans : Chans) (bridgedOf : Nat → Option Nat)
    (queryBridged : Nat → Int) : Eff :=
  match pvt with
  | none => { res := -1, pvt := none, chans := chans, destroyed := 0, events := [] }
  | some p =>
    if opt ≠ AST_OPTION_T38_STATE then
      { res := -1, pvt := some p, chans := chans, destroyed := 0, events := [] }
    else
      let far := if isOutbound ast p then p.owner else p.chan
      match far with
      | none => { res := -1, pvt := some p, chans := chans, destroyed := 0, events := [] }
      | some c =>
        match bridgedOf c with
        | none => { res := -1, pvt := some p, chans := chans, destroyed := 0, events := [] }
        | some b =>
          { res := queryBridged b, pvt := some p, chans := chans,
            destroyed := 0, events := [] }

/-- local_answer (src lines 350-370): fail on a null tech_pvt; on the
outbound side forward a control-answer frame; on the owner side warn and
fail. -/
def local_answer (ast : Nat) (pvt : Option LocalPvt) (chans : Chans) : Eff :=
  match pvt with
  | none => { res := -1, pvt := none, chans := chans, destroyed := 0, events := [] }
  | some p =>
    if isOutbound ast p then
      local_queue_frame p true
        { ftype := FType.control, subclass := AST_CONTROL_ANSWER } (some ast) chans
    else
      { res := -1, pvt := some p, chans := chans, destroyed := 0, events := [] }

/-- local_indicate (src lines 508-572): hold and unhold are handled locally
as music-on-hold unless MOH_PASSTHRU is set; connected-line and
redirecting indications forward the party data accumulated on the
originating endpoint (copying the connected line of the B side into the
caller of the partner first when outbound); everything else is forwarded
as a control frame with the given payload. -/
def local_indicate (ast : Nat) (condition : Int) (dataptr : Nat)
    (datalen : Nat) (pvt : Option LocalPvt) (chans : Chans) : Eff :=
  match pvt with
  | none => { res := -1, pvt := none, chans := chans, destroyed := 0, events := [] }
  | some p =>
    if !p.flags.mohPassthru && condition = AST_CONTROL_HOLD then
      { res := 0, pvt := some p, chans := chans, destroyed := 0,
        events := [Event.mohStart ast] }
    else if !p.flags.mohPassthru && condition = AST_CONTROL_UNHOLD then
      { res := 0, pvt := some p, chans := chans, destroyed := 0,
        events := [Event.mohStop ast] }
    else if condition = AST_CONTROL_CONNECTED_LINE
        || condition = AST_CONTROL_REDIRECTING then
      let iso := isOutbound ast p
      let thisChannel := if iso then p.chan else p.owner
      let otherChannel := if iso then p.owner else p.chan
      match otherChannel with
      | none => { res := 0, pvt := some p, chans := chans, destroyed := 0, events := [] }
      | some oc =>
        let chans1 :=
          if condition = AST_CONTROL_CONNECTED_LINE ∧ iso = true then
            match thisChannel with
            | some tc =>
              setChan chans oc { chans oc with caller := (chans tc).connected }
            | none => chans
          else chans
        let pdata :=
          match thisChannel with
          | some tc =>
            some (if condition = AST_CONTROL_CONNECTED_LINE then
                    (chans1 tc).connected.pdata
                  else (chans1 tc).redirecting.pdata)
          | none => none
        local_queue_frame p iso
          { ftype := FType.control, subclass := condition, pdata := pdata }
          (some ast) chans1
    else
      local_queue_frame p (isOutbound ast p)
        { ftype := FType.control, subclass := condition, fdata := dataptr,
          datalen := datalen } (some ast) chans

/-- local_digit_begin (src lines 574-591): forward a DTMF-begin frame. -/
def local_digit_begin (ast : Nat) (digit : Int) (pvt : Option LocalPvt)
    (chans : Chans) : Eff :=
  match pvt with
  | none => { res := -1, pvt := none, chans := chans, destroyed := 0, events := [] }
  | some p =>
    local_queue_frame p (isOutbound ast p)
      { ftype := FType.dtmfBegin, subclass := digit } (some ast) chans

/-- local_digit_end (src lines 593-611): forward a DTMF-end frame with the
given duration. -/
def local_digit_end (ast : Nat) (digit : Int) (duration : Nat)
    (pvt : Option LocalPvt) (chans : Chans) : Eff :=
  match pvt with
  | none => { res := -1, pvt := none, chans := chans, destroyed := 0, events := [] }
  | some p =>
    local_queue_frame p (isOutbound ast p)
      { ftype := FType.dtmfEnd, subclass := digit, len := duration } (some ast) chans

/-- local_sendtext (src lines 613-630): forward a text frame whose length
is the string length plus the terminating NUL. -/
def local_sendtext (ast : Nat) (text : List Char) (pvt : Option LocalPvt)
    (chans : Chans) : Eff :=
  match pvt with
  | none => { res := -1, pvt := none, chans := chans, destroyed := 0, events := [] }
  | some p =>
    local_queue_frame p (isOutbound ast p)
      { ftype := FType.text, datalen := text.length + 1 } (some ast) chans

/-- local_sendhtml (src lines 632-650): forward an html frame with the
given subclass and payload. -/
def local_sendhtml (ast : Nat) (subclass : Int) (dataptr : Nat)
    (datalen : Nat) (pvt : Option LocalPvt) (chans : Chans) : Eff :=
  match pvt with
  | none => { res := -1, pvt := none, chans := chans, destroyed := 0, events := [] }
  | some p =>
    local_queue_frame p (isOutbound ast p)
      { ftype := FType.html, subclass := subclass, fdata := dataptr,
        datalen := datalen } (some ast) chans

/-- Truncate a character list at the last occurrence of `c` (strrchr
followed by writing a NUL there); unchanged when `c` does not occur. -/
def dropAfterLast (c : Char) (s : List Char) : List Char :=
  match splitAtFirst c s.reverse with
  | some (_, b) => b.reverse
  | none => s

/-- External inputs of local_call: whether the target extension exists and
the return code of ast_pbx_start. -/
structure CallEnv where
  extenExists : Bool := true
  pbxRes : Int := 0
  deriving DecidableEq, Repr

/-- local_call (src lines 654-746): copy party data, language, account
code, music class, CC parameters from the owner to the B side; fail when
the target extension does not exist; propagate ANSWERED_ELSEWHERE; append
copies of the owner channel variables in order; inherit datastores; set
the CC_INTERFACES variable from the destination with its last
slash-suffix removed; start the dialplan and on success set LAUNCHED_PBX,
returning the ast_pbx_start result. -/
def local_call (env : CallEnv) (ast : Nat) (dest : List Char)
    (pvt : Option LocalPvt) (chans : Chans) : Eff :=
  match pvt with
  | none => { res := -1, pvt := none, chans := chans, destroyed := 0, events := [] }
  | some p =>
    match p.owner, p.chan with
    | some o, some c =>
      let co := chans o
      let chans1 := setChan chans c
        { chans c with
          redirecting := co.redirecting,
          dialed := co.dialed,
          caller := co.connected,
          connected := co.caller,
          language := co.language,
          accountcode := co.accountcode,
          musicclass := co.musicclass }
      let evs1 := [Event.cdrUpdate c, Event.ccParamsInit c]
      if !env.extenExists then
        { res := -1, pvt := some p, chans := chans1, destroyed := 0, events := evs1 }
      else
        let chans2 :=
          if (chans1 ast).answeredElsewhere then
            setChan chans1 c { chans1 c with answeredElsewhere := true }
          else chans1
        let chans3 := setChan chans2 c
          { chans2 c with vars := (chans2 c).vars ++ (chans2 o).vars }
        let evs2 := evs1 ++
          [Event.datastoreInherit o c,
           Event.ccInterfaces c (dropAfterLast '/' dest),
           Event.pbxStart c]
        let p1 :=
          if env.pbxRes = 0 then
            { p with flags := { p.flags with launchedPbx := true } }
          else p
        { res := env.pbxRes, pvt := some p1, chans := chans3, destroyed := 0,
          events := evs2 }
    | _, _ => { res := -1, pvt := some p, chans := chans, destroyed := 0, events := [] }

/-- local_fixup (src lines 486-506): replace whichever slot matched the old
channel; warn and fail when neither did. -/
def local_fixup (oldchan newchan : Nat) (pvt : Option LocalPvt)
    (chans : Chans) : Eff :=
  match pvt with
  | none => { res := -1, pvt := none, chans := chans, destroyed := 0, events := [] }
  | some p =>
    if p.owner ≠ some oldchan ∧ p.chan ≠ some oldchan then
      { res := -1, pvt := some p, chans := chans, destroyed := 0, events := [] }
    else if p.owner = some oldchan then
      { res := 0, pvt := some { p with owner := some newchan }, chans := chans,
        destroyed := 0, events := [] }
    else
      { res := 0, pvt := some { p with chan := some newchan }, chans := chans,
        destroyed := 0, events := [] }

/-! Lemmas about `splitAtFirst`. -/

theorem splitAtFirst_of_not_mem {c : Char} :
    ∀ {s : List Char}, c ∉ s → splitAtFirst c s = none := by
  intro s
  induction s with
  | nil => intro _; rfl
  | cons x xs ih =>
    intro h
    simp only [List.mem_cons, not_or] at h
    have hx : ¬ x = c := fun hxe => h.1 hxe.symm
    simp only [splitAtFirst, if_neg hx, ih h.2]

theorem splitAtFirst_eq_some {c : Char} :
    ∀ {s a b : List Char}, splitAtFirst c s = some (a, b) →
      s = a ++ c :: b ∧ c ∉ a := by
  intro s
  induction s with
  | nil => intro a b h; simp [splitAtFirst] at h
  | cons x xs ih =>
    intro a b h
    by_cases hx : x = c
    · rw [show splitAtFirst c (x :: xs) = some ([], xs) by
        simp [splitAtFirst, hx]] at h
      simp only [Option.some.injEq, Prod.mk.injEq] at h
      refine ⟨?_, ?_⟩
      · rw [← h.1, ← h.2, hx]; rfl
      · rw [← h.1]; exact List.not_mem_nil c
    · rw [show splitAtFirst c (x :: xs) =
          (match splitAtFirst c xs with
           | some (a, b) => some (x :: a, b)
           | none => none) by simp [splitAtFirst, hx]] at h
      cases hsp : splitAtFirst c xs with
      | none => rw [hsp] at h; exact absurd h (by simp)
      | some ab =>
        obtain ⟨a', b'⟩ := ab
        rw [hsp] at h
        simp only [Option.some.injEq, Prod.mk.injEq] at h
        obtain ⟨hs, hm⟩ := ih hsp
        refine ⟨?_, ?_⟩
        · rw [← h.1, ← h.2, hs]; rfl
        · rw [← h.1]
          simp only [List.mem_cons, not_or]
          exact ⟨fun hcx => hx hcx.symm, hm⟩

theorem splitAtFirst_append {c : Char} :
    ∀ {a : List Char} (b : List Char), c ∉ a →
      splitAtFirst c (a ++ c :: b) = some (a, b) := by
  intro a
  induction a with
  | nil => intro b _; simp [splitAtFirst]
  | cons x xs ih =>
    intro b h
    simp only [List.mem_cons, not_or] at h
    have hx : ¬ x = c := fun hxe => h.1 hxe.symm
    simp [splitAtFirst, hx, ih b h.2]

/-- With ALREADY_MASQED set, check_bridge is the identity with no events. -/
theorem check_bridge_masqed (env : CBEnv) (p : LocalPvt) (chans : Chans)
    (h : p.flags.alreadyMasqed = true) :
    check_bridge env p chans = (p, chans, []) := by
  unfold check_bridge
  rcases hc : p.chan with _ | c <;> rcases ho : p.owner with _ | o <;> simp [h]

/-- Claim C1: once ALREADY_MASQED is set on a pair, a local_write on either
endpoint returns 0, leaves every channel (in particular the partner read
queue) unchanged, destroys nothing and emits no event. -/
theorem local_write_after_masquerade (env : CBEnv) (ast : Nat) (f : Frame)
    (p : LocalPvt) (chans : Chans) (hm : p.flags.alreadyMasqed = true)
    (_hend : p.owner = some ast ∨ p.chan = some ast) :
    local_write env ast f (some p) chans =
      { res := 0, pvt := some p, chans := chans, destroyed := 0, events := [] } := by
  have hcb := check_bridge_masqed env p chans hm
  unfold local_write
  by_cases hio : (isOutbound ast p && (f.ftype = FType.voice || f.ftype = FType.video)) = true
  · simp [hio, hcb, hm]
  · simp only [Bool.not_eq_true] at hio
    simp [hio, hm]

/-- Witness for C1 at a concrete pair and frame. -/
theorem local_write_after_masquerade_witness :
    local_write {} 1 { ftype := FType.voice }
        (some { flags := { alreadyMasqed := true }, owner := some 0, chan := some 1 })
        (fun _ => {}) =
      { res := 0,
        pvt := some { flags := { alreadyMasqed := true }, owner := some 0, chan := some 1 },
        chans := fun _ => {}, destroyed := 0, events := [] } :=
  local_write_after_masquerade {} 1 { ftype := FType.voice }
    { flags := { alreadyMasqed := true }, owner := some 0, chan := some 1 }
    (fun _ => {}) rfl (Or.inr rfl)

/-- Claim C2: check_bridge changes nothing (no pair-state change, no heap
change, no masquerade or group-update event) unless ALREADY_MASQED and
NO_OPTIMIZATION are clear, both endpoint handles are live, the one-step
bridge of the B side equals the transitive resolution, and the read queue
of the A side is empty. -/
theorem check_bridge_requires_conditions (env : CBEnv) (p : LocalPvt)
    (chans : Chans) (h : check_bridge_conds env p chans = false) :
    check_bridge env p chans = (p, chans, []) := by
  unfold check_bridge
  rcases hc : p.chan with _ | c
  · rfl
  rcases ho : p.owner with _ | o
  · rfl
  unfold check_bridge_conds at h
  rw [hc, ho] at h
  dsimp only at h ⊢
  by_cases hg : (p.flags.alreadyMasqed || p.flags.noOptimization
      || !(decide ((chans c).bridge = env.bridgedChan))) = true
  · rw [if_pos hg]
  · rw [if_neg hg]
    simp only [Bool.or_eq_true, Bool.not_eq_true', decide_eq_false_iff_not,
      not_or, Bool.not_eq_true, not_not] at hg
    obtain ⟨⟨h1, h2⟩, h3⟩ := hg
    have h3d : decide ((chans c).bridge = env.bridgedChan) = true := by
      simp [h3]
    simp only [h1, h2, h3d, Bool.not_false, Bool.true_and] at h
    rcases hb : (chans c).bridge with _ | peer
    · rfl
    · simp [h]

/-- Witness for C2: a pair with NO_OPTIMIZATION set is left untouched. -/
theorem check_bridge_requires_conditions_witness :
    check_bridge {} { flags := { noOptimization := true }, owner := some 0, chan := some 1 }
        (fun _ => {}) =
      ({ flags := { noOptimization := true }, owner := some 0, chan := some 1 },
        fun _ => {}, []) :=
  check_bridge_requires_conditions {}
    { flags := { noOptimization := true }, owner := some 0, chan := some 1 }
    (fun _ => {}) rfl

/-- Claim C3: when the forwarder reaches the partner (the recomputed
partner is live and the paired-generator drop did not trigger) and
observes CANCEL_QUEUE, it returns -1, destroys the pair exactly once and
leaves every read queue unchanged. -/
theorem queue_frame_cancel_queue (p : LocalPvt) (iso : Bool) (f : Frame)
    (us : Option Nat) (chans : Chans) (o : Nat)
    (ho : (if iso then p.owner else p.chan) = some o)
    (hg : genBoth us o chans = false)
    (hc : p.flags.cancelQueue = true) :
    local_queue_frame p iso f us chans =
      { res := -1, pvt := none, chans := chans, destroyed := 1, events := [] } := by
  unfold local_queue_frame
  rw [ho]
  simp only [hg, Bool.false_eq_true, if_neg]
  unfold queue_frame_cont
  simp [hc]

/-- Witness for C3 at a concrete pair. -/
theorem queue_frame_cancel_queue_witness :
    local_queue_frame
        { flags := { glareDetect := true, cancelQueue := true },
          owner := some 0, chan := some 1 }
        true { ftype := FType.text } (some 1) (fun _ => {}) =
      { res := -1, pvt := none, chans := fun _ => {}, destroyed := 1, events := [] } :=
  queue_frame_cancel_queue
    { flags := { glareDetect := true, cancelQueue := true },
      owner := some 0, chan := some 1 }
    true { ftype := FType.text } (some 1) (fun _ => {}) 0 rfl rfl rfl

/-- Claim C4: when local_hangup nulls the second of the two endpoint
handles, it returns 0 and removes the pair from the registry; the pair is
destroyed inside the call exactly when GLARE_DETECT is clear, and
otherwise CANCEL_QUEUE is set and the in-flight forwarder, once it leaves
its lock loop, performs the single destruction and reports failure. -/
theorem local_hangup_second_endpoint (env : HangEnv) (ast : Nat)
    (p : LocalPvt) (chans : Chans)
    (hsec : (p.chan = some ast ∧ p.owner = none) ∨
      (p.chan ≠ some ast ∧ p.chan = none)) :
    (local_hangup env ast (some p) chans).res = 0 ∧
    Event.removeFromRegistry ∈ (local_hangup env ast (some p) chans).events ∧
    (p.flags.glareDetect = false →
      (local_hangup env ast (some p) chans).destroyed = 1 ∧
      (local_hangup env ast (some p) chans).pvt = none) ∧
    (p.flags.glareDetect = true →
      (local_hangup env ast (some p) chans).destroyed = 0 ∧
      ∃ p2, (local_hangup env ast (some p) chans).pvt = some p2 ∧
        p2.flags.cancelQueue = true ∧
        ∀ (other : Option Nat) (f : Frame) (ch : Chans),
          (queue_frame_cont p2 other f ch).res = -1 ∧
          (queue_frame_cont p2 other f ch).destroyed = 1) := by
  rcases hsec with ⟨hchan, hown⟩ | ⟨hniso, hchan⟩
  · have hiso : isOutbound ast p = true := by simp [isOutbound, hchan]
    by_cases hgl : p.flags.glareDetect = true
    · rcases hd : env.dialstatus with _ | st <;>
        simp [local_hangup, hiso, hchan, hown, hd, hgl, queue_frame_cont]
    · simp only [Bool.not_eq_true] at hgl
      rcases hd : env.dialstatus with _ | st <;>
        simp [local_hangup, hiso, hchan, hown, hd, hgl]
  · have hiso : isOutbound ast p = false := by simp [isOutbound, hchan]
    by_cases hgl : p.flags.glareDetect = true
    · simp [local_hangup, hiso, hchan, hgl, queue_frame_cont]
    · simp only [Bool.not_eq_true] at hgl
      simp [local_hangup, hiso, hchan, hgl]

/-- Witness for C4: hanging up the last live endpoint of a glare-free pair
destroys it once. -/
theorem local_hangup_second_endpoint_witness :
    (local_hangup {} 5 (some { owner := none, chan := some 5 }) (fun _ => {})).res = 0 ∧
    Event.removeFromRegistry ∈
      (local_hangup {} 5 (some { owner := none, chan := some 5 }) (fun _ => {})).events ∧
    (false = false →
      (local_hangup {} 5 (some { owner := none, chan := some 5 }) (fun _ => {})).destroyed = 1 ∧
      (local_hangup {} 5 (some { owner := none, chan := some 5 }) (fun _ => {})).pvt = none) ∧
    (false = true →
      (local_hangup {} 5 (some { owner := none, chan := some 5 }) (fun _ => {})).destroyed = 0 ∧
      ∃ p2, (local_hangup {} 5 (some { owner := none, chan := some 5 }) (fun _ => {})).pvt = some p2 ∧
        p2.flags.cancelQueue = true ∧
        ∀ (other : Option Nat) (f : Frame) (ch : Chans),
          (queue_frame_cont p2 other f ch).res = -1 ∧
          (queue_frame_cont p2 other f ch).destroyed = 1) :=
  local_hangup_second_endpoint {} 5 { owner := none, chan := some 5 }
    (fun _ => {}) (Or.inl ⟨rfl, rfl⟩)

/-- Claim C5: local_devicestate answers INVALID for a destination without
an at-sign and for an extension the dialplan does not know; otherwise it
answers IN_USE exactly when some registered pair matches the parsed
extension and context with a live owner, and NOT_IN_USE exactly
otherwise. -/
theorem local_devicestate_spec (s : List Char)
    (extenExists : List Char → List Char → Bool) (registry : List LocalPvt) :
    ( '@' ∉ s → local_devicestate s extenExists registry = AST_DEVICE_INVALID) ∧
    (∀ e ctx, devicestate_parse s = some (e, ctx) →
      (extenExists ctx e = false →
        local_devicestate s extenExists registry = AST_DEVICE_INVALID) ∧
      (extenExists ctx e = true →
        ((local_devicestate s extenExists registry = AST_DEVICE_INUSE) ↔
          ∃ lp ∈ registry, lp.exten = e ∧ lp.context = ctx ∧ lp.owner.isSome = true) ∧
        ((local_devicestate s extenExists registry = AST_DEVICE_NOT_INUSE) ↔
          ¬ ∃ lp ∈ registry, lp.exten = e ∧ lp.context = ctx ∧ lp.owner.isSome = true))) := by
  constructor
  · intro hat
    unfold local_devicestate devicestate_parse
    rw [splitAtFirst_of_not_mem hat]
  · intro e ctx hparse
    constructor
    · intro hne
      unfold local_devicestate
      rw [hparse]
      dsimp only
      rw [hne]
      rfl
    · intro hex
      have hany : (registry.any (fun lp =>
          decide (lp.exten = e) && decide (lp.context = ctx)
            && lp.owner.isSome) = true) ↔
          ∃ lp ∈ registry, lp.exten = e ∧ lp.context = ctx ∧ lp.owner.isSome = true := by
        simp [List.any_eq_true, and_assoc]
      constructor
      · rw [← hany]
        unfold local_devicestate
        rw [hparse]
        dsimp only
        rw [hex]
        by_cases hr : (registry.any (fun lp =>
            decide (lp.exten = e) && decide (lp.context = ctx)
              && lp.owner.isSome) = true)
        · simp [hr, AST_DEVICE_INUSE]
        · simp only [Bool.not_eq_true] at hr
          simp [hr, AST_DEVICE_INUSE, AST_DEVICE_NOT_INUSE]
      · rw [← hany]
        unfold local_devicestate
        rw [hparse]
        dsimp only
        rw [hex]
        by_cases hr : (registry.any (fun lp =>
            decide (lp.exten = e) && decide (lp.context = ctx)
              && lp.owner.isSome) = true)
        · simp [hr, AST_DEVICE_INUSE, AST_DEVICE_NOT_INUSE]
        · simp only [Bool.not_eq_true] at hr
          simp [hr, AST_DEVICE_NOT_INUSE]

/-- Witness for C5: a destination without an at-sign is INVALID. -/
theorem local_devicestate_spec_witness :
    local_devicestate ['1','0','0','0'] (fun _ _ => true) [] = AST_DEVICE_INVALID :=
  (local_devicestate_spec ['1','0','0','0'] (fun _ _ => true) []).1 (by decide)

theorem splitAtFirst_isSome_of_mem {c : Char} :
    ∀ {s : List Char}, c ∈ s → (splitAtFirst c s).isSome = true := by
  intro s
  induction s with
  | nil => intro h; simp at h
  | cons x xs ih =>
    intro h
    by_cases hx : x = c
    · simp [splitAtFirst, hx]
    · have hm : c ∈ xs := by
        rcases List.mem_cons.mp h with h1 | h2
        · exact absurd h1.symm hx
        · exact h2
      rcases ho : splitAtFirst c xs with _ | ab
      · have hsome := ih hm
        rw [ho] at hsome
        simp at hsome
      · simp [splitAtFirst, hx, ho]

/-- Claim C6 counterexample: on the destination 1000/n@ctx the devicestate
parser yields extension 1000/n and context ctx while the allocation
parser yields extension 1000 and context default, so the two parses of
the same string differ. -/
theorem parse_disagreement_cex :
    devicestate_parse ['1','0','0','0','/','n','@','c','t','x'] ≠
      some (alloc_parse ['1','0','0','0','/','n','@','c','t','x']) := by
  decide

/-- Claim C6 amended: the devicestate parse and the allocation parse of a
destination agree whenever the string contains an at-sign and no slash
precedes the first at-sign (that is, any options follow the context); on
strings whose first slash precedes the first at-sign the two parsers
disagree. -/
theorem parse_agreement (s e rest : List Char)
    (hsplit : splitAtFirst '@' s = some (e, rest))
    (hslash : '/' ∉ e) :
    devicestate_parse s = some (alloc_parse s) := by
  obtain ⟨hs, hnotat⟩ := splitAtFirst_eq_some hsplit
  cases hr : splitAtFirst '/' rest with
  | none =>
    have hnr : '/' ∉ rest := by
      intro hmem
      have hsome := splitAtFirst_isSome_of_mem hmem
      rw [hr] at hsome
      simp at hsome
    have hns : '/' ∉ s := by
      rw [hs]
      simp only [List.mem_append, List.mem_cons, not_or]
      exact ⟨hslash, by decide, hnr⟩
    unfold devicestate_parse alloc_parse stripOpts
    rw [hsplit]
    dsimp only
    rw [hr, splitAtFirst_of_not_mem hns]
    dsimp only
    rw [hsplit]
  | some r1r2 =>
    obtain ⟨r1, r2⟩ := r1r2
    obtain ⟨hrest, hnr1⟩ := splitAtFirst_eq_some hr
    have hcat : s = (e ++ '@' :: r1) ++ '/' :: r2 := by
      rw [hs, hrest]; simp
    have hne : '/' ∉ e ++ '@' :: r1 := by
      simp only [List.mem_append, List.mem_cons, not_or]
      exact ⟨hslash, by decide, hnr1⟩
    have hsplit2 : splitAtFirst '/' s = some (e ++ '@' :: r1, r2) := by
      rw [hcat]; exact splitAtFirst_append r2 hne
    have hsplit3 : splitAtFirst '@' (e ++ '@' :: r1) = some (e, r1) :=
      splitAtFirst_append r1 hnotat
    unfold devicestate_parse alloc_parse stripOpts
    rw [hsplit]
    dsimp only
    rw [hr, hsplit2]
    dsimp only
    rw [hsplit3]

/-- Witness for the amended C6 on the destination 1000@ctx/n, where the
options follow the context. -/
theorem parse_agreement_witness :
    devicestate_parse ['1','0','0','0','@','c','t','x','/','n'] =
      some (alloc_parse ['1','0','0','0','@','c','t','x','/','n']) :=
  parse_agreement ['1','0','0','0','@','c','t','x','/','n']
    ['1','0','0','0'] ['c','t','x','/','n'] (by decide) (by decide)

/-- Claim C7: local_alloc reads its option letters from after the first
slash of the destination (so before the at-sign is sought): the letter n
sets NO_OPTIMIZATION, b sets LOCAL_BRIDGE, m sets MOH_PASSTHRU, and j
enables the jitter buffer exactly when n is also present, logging an
error and ignoring j otherwise; extension and context come from
alloc_parse, and the context is the literal default when the stripped
string has no at-sign. -/
theorem local_alloc_spec (s : List Char) (format : Nat) :
    (local_alloc s format).pvt.flags.noOptimization = (alloc_opts s).contains 'n' ∧
    (local_alloc s format).pvt.flags.bridge = (alloc_opts s).contains 'b' ∧
    (local_alloc s format).pvt.flags.mohPassthru = (alloc_opts s).contains 'm' ∧
    (local_alloc s format).pvt.jbEnabled =
      ((alloc_opts s).contains 'j' && (alloc_opts s).contains 'n') ∧
    (local_alloc s format).jbErrorLogged =
      ((alloc_opts s).contains 'j' && !(alloc_opts s).contains 'n') ∧
    ((local_alloc s format).pvt.exten, (local_alloc s format).pvt.context) =
      alloc_parse s ∧
    (splitAtFirst '@' (stripOpts s) = none →
      (local_alloc s format).pvt.context = "default".toList) := by
  refine ⟨rfl, rfl, rfl, rfl, rfl, Prod.mk.eta, ?_⟩
  intro h
  show (alloc_parse s).2 = "default".toList
  unfold alloc_parse
  rw [h]

/-- Witness for C7: a bare extension keeps the default context. -/
theorem local_alloc_spec_witness :
    (local_alloc ['1','0','0','0'] 0).pvt.context = "default".toList :=
  (local_alloc_spec ['1','0','0','0'] 0).2.2.2.2.2.2 rfl

/-- Claim C8 counterexample: LOCAL_BRIDGE set, owner 0 and chan 1 live,
query on the owner: the far endpoint 1 has no one-step bridge partner in
the all-default heap, yet local_bridgedchannel answers channel 1 itself
rather than that (absent) partner. -/
theorem local_bridgedchannel_cex :
    local_bridgedchannel 0
        (some { flags := { bridge := true }, owner := some 0, chan := some 1 })
        (fun _ => {}) = some 1 ∧
    ((fun _ => ({} : Chan)) 1).bridge = none :=
  ⟨rfl, rfl⟩

/-- Claim C8 amended: on a live pair, with LOCAL_BRIDGE clear the query
returns `bridge` unchanged; with it set it returns the one-step bridge
partner of the endpoint opposite to `bridge` when that partner exists,
and the opposite endpoint itself when it has none. -/
theorem local_bridgedchannel_spec (bridge : Nat) (p : LocalPvt)
    (chans : Chans) (_hown : p.owner.isSome = true)
    (_hchan : p.chan.isSome = true) :
    (p.flags.bridge = false →
      local_bridgedchannel bridge (some p) chans = some bridge) ∧
    (p.flags.bridge = true →
      ∀ b, (if p.owner = some bridge then p.chan else p.owner) = some b →
        local_bridgedchannel bridge (some p) chans =
          some ((chans b).bridge.getD b)) := by
  constructor
  · intro hf
    simp [local_bridgedchannel, hf]
  · intro hf b hb
    rcases hcb : (chans b).bridge with _ | bb <;>
      simp [local_bridgedchannel, hf, hb, hcb]

/-- Witness for the amended C8: flag clear returns the argument. -/
theorem local_bridgedchannel_spec_witness :
    local_bridgedchannel 0 (some { owner := some 0, chan := some 1 })
      (fun _ => {}) = some 0 :=
  (local_bridgedchannel_spec 0 { owner := some 0, chan := some 1 }
    (fun _ => {}) rfl rfl).1 rfl

/-- Claim C9: local_queryoption rejects every option other than T38_STATE
with -1, and rejects a T38_STATE query with -1 when the far endpoint is
null or the far endpoint has no bridge partner; in each case the pair
state and the heap come back unchanged. -/
theorem local_queryoption_spec (ast : Nat) (opt : Nat) (p : LocalPvt)
    (chans : Chans) (bridgedOf : Nat → Option Nat) (queryBridged : Nat → Int) :
    (opt ≠ AST_OPTION_T38_STATE →
      local_queryoption ast opt (some p) chans bridgedOf queryBridged =
        { res := -1, pvt := some p, chans := chans, destroyed := 0, events := [] }) ∧
    ((if isOutbound ast p then p.owner else p.chan) = none →
      local_queryoption ast AST_OPTION_T38_STATE (some p) chans bridgedOf queryBridged =
        { res := -1, pvt := some p, chans := chans, destroyed := 0, events := [] }) ∧
    (∀ c, (if isOutbound ast p then p.owner else p.chan) = some c →
      bridgedOf c = none →
      local_queryoption ast AST_OPTION_T38_STATE (some p) chans bridgedOf queryBridged =
        { res := -1, pvt := some p, chans := chans, destroyed := 0, events := [] }) := by
  refine ⟨?_, ?_, ?_⟩
  · intro hopt
    simp [local_queryoption, hopt]
  · intro hfar
    simp [local_queryoption, hfar]
  · intro c hfar hbr
    simp [local_queryoption, hfar, hbr]

/-- Witness for C9: an unsupported option fails without touching state. -/
theorem local_queryoption_spec_witness :
    local_queryoption 0 0 (some { owner := some 0, chan := some 1 })
        (fun _ => {}) (fun _ => none) (fun _ => 0) =
      { res := -1, pvt := some { owner := some 0, chan := some 1 },
        chans := fun _ => {}, destroyed := 0, events := [] } :=
  (local_queryoption_spec 0 0 { owner := some 0, chan := some 1 }
    (fun _ => {}) (fun _ => none) (fun _ => 0)).1 (by decide)

/-- Claim C10: every adapter entry point invoked on a channel whose
tech_pvt is null returns -1, leaves the channel heap untouched, destroys
no pair and emits no event. -/
theorem null_tech_pvt_rejected (ast oldc newc : Nat) (f : Frame) (d : Int)
    (dataptr datalen duration : Nat) (text dest : List Char)
    (cond subclass : Int) (opt : Nat) (cbenv : CBEnv) (henv : HangEnv)
    (cenv : CallEnv) (chans : Chans) (bridgedOf : Nat → Option Nat)
    (queryBridged : Nat → Int) :
    local_answer ast none chans =
      { res := -1, pvt := none, chans := chans, destroyed := 0, events := [] } ∧
    local_write cbenv ast f none chans =
      { res := -1, pvt := none, chans := chans, destroyed := 0, events := [] } ∧
    local_indicate ast cond dataptr datalen none chans =
      { res := -1, pvt := none, chans := chans, destroyed := 0, events := [] } ∧
    local_digit_begin ast d none chans =
      { res := -1, pvt := none, chans := chans, destroyed := 0, events := [] } ∧
    local_digit_end ast d duration none chans =
      { res := -1, pvt := none, chans := chans, destroyed := 0, events := [] } ∧
    local_sendtext ast text none chans =
      { res := -1, pvt := none, chans := chans, destroyed := 0, events := [] } ∧
    local_sendhtml ast subclass dataptr datalen none chans =
      { res := -1, pvt := none, chans := chans, destroyed := 0, events := [] } ∧
    local_call cenv ast dest none chans =
      { res := -1, pvt := none, chans := chans, destroyed := 0, events := [] } ∧
    local_hangup henv ast none chans =
      { res := -1, pvt := none, chans := chans, destroyed := 0, events := [] } ∧
    local_fixup oldc newc none chans =
      { res := -1, pvt := none, chans := chans, destroyed := 0, events := [] } ∧
    local_queryoption ast opt none chans bridgedOf queryBridged =
      { res := -1, pvt := none, chans := chans, destroyed := 0, events := [] } :=
  ⟨rfl, rfl, rfl, rfl, rfl, rfl, rfl, rfl, rfl, rfl, rfl⟩

end ChanLocal
